import Mathlib

/-!
Verification of the spyder remote-client container
(spyder/plugins/remoteclient/widgets/container.py) and of the pytest
configuration hooks (conftest.py), against the repository's design
specification.

The Python code is shallowly embedded: each method becomes a Lean
function, the Qt/GUI side effects (attribute mutation, signal wiring,
file writes, worker submission, user-visible errors) are recorded as an
ordered effect trace, and the configuration store is explicit state.
-/

set_option maxRecDepth 4096
set_option linter.unusedVariables false

/-- Rendering of a Python value inside an f-string: the value when
present, the literal text None when the value is Python None. -/
def pyStr : Option String → String
  | none => "None"
  | some s => s

/-- Python truthiness of an optional string: None and the empty string
are falsy, every other string is truthy. -/
def pyTruthy : Option String → Bool
  | none => false
  | some s => s ≠ ""

/-- Modelled from the spec: the AuthenticationMethod enum (Password,
KeyFile, ConfigFile) lives in spyder.plugins.remoteclient.widgets, which
is not part of the sources; the spec describes it as a three-valued enum
of method names. The claims depend only on the three values being
distinct strings, not on their exact text. -/
def AuthenticationMethod.Password : String := "password_login"

/-- Modelled from the spec: the KeyFile member of AuthenticationMethod. -/
def AuthenticationMethod.KeyFile : String := "keyfile_login"

/-- Modelled from the spec: the ConfigFile member of AuthenticationMethod. -/
def AuthenticationMethod.ConfigFile : String := "configfile_login"

/-- The configuration store seen by the container: a plain keyspace and
a secure keyspace (get_conf/set_conf with secure=True read and write the
latter). Keys are the path strings the code builds with f-strings. An
absent option is modelled as none. -/
@[ext]
structure ConfStore where
  plain : String → Option String
  secure : String → Option String

/-- get_conf: read a key from the plain or the secure keyspace. -/
def ConfStore.get_conf (conf : ConfStore) (key : String) (isSecure : Bool) :
    Option String :=
  if isSecure then conf.secure key else conf.plain key

/-- set_conf: write a key in the plain keyspace (the container only ever
writes plain options). -/
def ConfStore.set_conf (conf : ConfStore) (key : String) (value : String) :
    ConfStore :=
  { conf with plain := fun k => if k = key then some value else conf.plain k }

/-- The serialized kernel connection descriptor (kernel_info
["connection_info"]); opaque JSON handled only by json.dump and the
tunnel, so modelled as its serialized text. -/
abbrev ConnInfo := String

/-- The remote-allocated local port bindings returned by the tunnel
worker and passed to the kernel handler as kernel_ports. -/
abbrev KernelPorts := List Nat

/-- The slice of an IPython console client that the container touches:
its server id, its kernel_id attribute and whether
sig_shutdown_kernel_requested has been connected. -/
structure Client where
  server_id : String
  kernel_id : Option String
  shutdown_signal_connected : Bool
deriving DecidableEq

/-- The kernel_info dictionary delivered to on_kernel_started: the
kernel id and the connection descriptor. -/
structure KernelInfo where
  id : String
  connection_info : ConnInfo
deriving DecidableEq

/-- A Python exception delivered as the error argument of the worker's
sig_finished signal; it carries its str() rendering. An exception
object is always truthy, whatever its message. -/
structure PyError where
  message : String
deriving DecidableEq

/-- Modelled from the spec: KernelHandler.from_connection_file
(spyder.plugins.ipythonconsole.utils.kernel_handler, not part of the
sources) builds a kernel handle from the connection-file path, hostname,
key, password, and the remote-allocated port bindings. -/
structure KernelHandler where
  connection_file : String
  hostname : String
  sshkey : Option String
  password : Option String
  kernel_ports : KernelPorts
deriving DecidableEq

/-- Modelled from the spec: the kernel-handle constructor, taking the
arguments in the order of the call site in _finish_kernel_connection. -/
def KernelHandler.from_connection_file (connection_file : String)
    (hostname : String) (sshkey : Option String) (password : Option String)
    (kernel_ports : KernelPorts) : KernelHandler :=
  { connection_file := connection_file
    hostname := hostname
    sshkey := sshkey
    password := password
    kernel_ports := kernel_ports }

/-- A tunnel-open job as built by on_kernel_started: the arguments
handed to KernelHandler.tunnel_to_kernel through
create_python_worker (the tunnel_ fields), followed by the attributes
the container saves on the worker object for the completion handler. -/
structure Worker where
  tunnel_connection_info : ConnInfo
  tunnel_hostname : String
  tunnel_sshkey : Option String
  tunnel_password : Option String
  ipyclient : Client
  connection_file : String
  hostname : String
  sshkey : Option String
  password : Option String
deriving DecidableEq

/-- One observable effect of the container code, in program order. -/
inductive Effect where
  /-- Assignment ipyclient.kernel_id = kernel_info["id"]. -/
  | setKernelId (kernel_id : String)
  /-- Connecting the client's sig_shutdown_kernel_requested signal
  (the body of _connect_ipyclient_signals). -/
  | connectShutdownSignal
  /-- A get_conf call with the given key and secure flag. -/
  | confRead (key : String) (isSecure : Bool)
  /-- Writing the local connection file with the serialized
  connection descriptor. -/
  | writeFile (path : String) (content : ConnInfo)
  /-- create_python_worker followed by worker.start() on the given
  fully initialized job. -/
  | submitAndStartWorker (w : Worker)
  /-- The UnboundLocalError raised when create_python_worker references
  sshkey and password after the credential branch assigned neither. -/
  | raiseUnboundLocal
  /-- A call ipyclient.show_kernel_error(message) on the given client. -/
  | showKernelError (client : Client) (message : String)
  /-- A call ipyclient.connect_kernel(kernel_handler) on the given
  client. -/
  | connectKernel (client : Client) (handler : KernelHandler)
deriving DecidableEq

/-- Result of a call to on_kernel_started: the client as mutated by the
call and the ordered effect trace. When the trace ends in
raiseUnboundLocal the exception propagates, but the client mutations
already performed persist. -/
structure KernelStartResult where
  ipyclient : Client
  trace : List Effect
deriving DecidableEq

/-- RemoteClientContainer.on_kernel_started. In program order: set the
client's kernel_id, connect its shutdown signal, read auth_method and
the address/username/port fields under the auth-method namespace, build
the hostname f-string, resolve credentials by auth method (for any
method other than Password and KeyFile the branch falls through without
assigning sshkey or password), write the fresh connection file, then
create and start the tunnel worker — a step that raises
UnboundLocalError in the fall-through case, since it references the
never-assigned sshkey and password locals. The fresh path returned by
KernelHandler.new_connection_file is a parameter. -/
def on_kernel_started (conf : ConfStore) (ipyclient : Client)
    (kernel_info : KernelInfo) (fresh_connection_file : String) :
    KernelStartResult :=
  let config_id := ipyclient.server_id
  let client := { ipyclient with
                    kernel_id := some kernel_info.id
                    shutdown_signal_connected := true }
  let auth_method := conf.get_conf (config_id ++ "/auth_method") false
  let am := pyStr auth_method
  let address := conf.get_conf (config_id ++ "/" ++ am ++ "/address") false
  let username := conf.get_conf (config_id ++ "/" ++ am ++ "/username") false
  let port := conf.get_conf (config_id ++ "/" ++ am ++ "/port") false
  let hostname := pyStr username ++ "@" ++ pyStr address ++ ":" ++ pyStr port
  let baseReads : List Effect :=
    [.confRead (config_id ++ "/auth_method") false,
     .confRead (config_id ++ "/" ++ am ++ "/address") false,
     .confRead (config_id ++ "/" ++ am ++ "/username") false,
     .confRead (config_id ++ "/" ++ am ++ "/port") false]
  let credStep : List Effect × Option (Option String × Option String) :=
    if auth_method = some AuthenticationMethod.Password then
      ([.confRead (config_id ++ "/password") true],
       some (none, conf.get_conf (config_id ++ "/password") true))
    else if auth_method = some AuthenticationMethod.KeyFile then
      let sshkey := conf.get_conf (config_id ++ "/" ++ am ++ "/keyfile") false
      let passpharse := conf.get_conf (config_id ++ "/passpharse") true
      ([.confRead (config_id ++ "/" ++ am ++ "/keyfile") false,
        .confRead (config_id ++ "/passpharse") true],
       some (sshkey, if pyTruthy passpharse then passpharse else none))
    else
      ([], none)
  let tail : List Effect :=
    match credStep.2 with
    | none => [.raiseUnboundLocal]
    | some (sshkey, password) =>
        [.submitAndStartWorker
          { tunnel_connection_info := kernel_info.connection_info
            tunnel_hostname := hostname
            tunnel_sshkey := sshkey
            tunnel_password := password
            ipyclient := client
            connection_file := fresh_connection_file
            hostname := hostname
            sshkey := sshkey
            password := password }]
  { ipyclient := client
    trace := .setKernelId kernel_info.id :: .connectShutdownSignal ::
      (baseReads ++ credStep.1 ++
        [.writeFile fresh_connection_file kernel_info.connection_info] ++
        tail) }

/-- RemoteClientContainer._finish_kernel_connection. The conf parameter
stands for the container self the method runs on; the body never touches
it. If the error is set (a delivered exception object is always truthy)
the job's client is shown str(error); otherwise a kernel handler is
built from the values saved on the worker plus the output ports and
connected to the job's client. -/
def finish_kernel_connection (conf : ConfStore) (worker : Worker)
    (output : KernelPorts) (error : Option PyError) : List Effect :=
  match error with
  | some err => [.showKernelError worker.ipyclient err.message]
  | none =>
      let kernel_handler := KernelHandler.from_connection_file
        worker.connection_file worker.hostname worker.sshkey worker.password
        output
      [.connectKernel worker.ipyclient kernel_handler]

/-- The ConnectionInfo record delivered by
sig_connection_status_changed. -/
structure ConnectionInfo where
  id : String
  status : String
  message : String
deriving DecidableEq

/-- RemoteClientContainer._on_connection_status_changed: persist status
and status_message under the connection id. -/
def on_connection_status_changed (conf : ConfStore) (info : ConnectionInfo) :
    ConfStore :=
  (conf.set_conf (info.id ++ "/status") info.status).set_conf
    (info.id ++ "/status_message") info.message

/-- Modelled from the spec: the bounded worker pool
(spyder.utils.workers.WorkerManager) is not part of the sources. Per the
spec it caps the number of simultaneously running jobs at max_threads
and queues excess requests instead of rejecting them; jobs are
identified here by numeric ids. -/
structure WorkerManager where
  max_threads : Nat
  running : List Nat
  queued : List Nat
deriving DecidableEq

/-- Modelled from the spec: a freshly constructed pool with the given
thread cap and no work. -/
def WorkerManager.mk_pool (n : Nat) : WorkerManager :=
  { max_threads := n, running := [], queued := [] }

/-- The pool the container builds in setup:
WorkerManager(max_threads=5). -/
def remote_client_worker_manager : WorkerManager := WorkerManager.mk_pool 5

/-- Modelled from the spec: submitting a job starts it immediately when
a thread slot is free and queues it otherwise; submission never fails. -/
def WorkerManager.submit (wm : WorkerManager) (job : Nat) : WorkerManager :=
  if wm.running.length < wm.max_threads then
    { wm with running := wm.running ++ [job] }
  else
    { wm with queued := wm.queued ++ [job] }

/-- Modelled from the spec: when a running job finishes it leaves the
running set and, if a slot is now free, the oldest queued job is
promoted to running. -/
def WorkerManager.finish_job (wm : WorkerManager) (job : Nat) : WorkerManager :=
  let running1 := wm.running.erase job
  if running1.length < wm.max_threads then
    match wm.queued with
    | [] => { wm with running := running1 }
    | q :: qs => { wm with running := running1 ++ [q], queued := qs }
  else
    { wm with running := running1 }

/-- An event in the life of the pool: a tunnel-open request or the
completion of a running job. -/
inductive PoolEvent where
  | submit (job : Nat)
  | finish (job : Nat)
deriving DecidableEq

/-- One pool transition. -/
def WorkerManager.step (wm : WorkerManager) : PoolEvent → WorkerManager
  | .submit job => wm.submit job
  | .finish job => wm.finish_job job

/-- Running a sequence of pool events from a starting state. -/
def WorkerManager.run (wm : WorkerManager) (events : List PoolEvent) :
    WorkerManager :=
  events.foldl WorkerManager.step wm

/-! Embedding of conftest.py: the passed-test log scan and the
collection hook. -/

/-- The characters of the literal prefix spyder in the log pattern. -/
def spyderChars : List Char := "spyder".data

/-- The three outcome keywords of the log pattern, in the alternation
order SKIPPED, PASSED, XFAIL. -/
def outcomeKeywords : List (List Char) :=
  ["SKIPPED".data, "PASSED".data, "XFAIL".data]

/-- Does a character sequence match the regex fragment consisting of
zero or more non-space characters followed by one of the outcome
keywords (with anything allowed after the keyword, since the pattern has
no end anchor)? -/
def outcomeSegMatch : List Char → Bool
  | [] => false
  | c :: cs =>
      outcomeKeywords.any (fun w => w.isPrefixOf (c :: cs)) ||
        (c != ' ' && outcomeSegMatch cs)

/-- Greedy search for the group-1 text after the spyder prefix: the
longest newline-free run of characters followed by a space whose
remainder matches the non-space-run-then-outcome-keyword fragment.
Returns that run when the pattern matches. Python's backtracking on the
greedy dot-star picks exactly the rightmost such split. -/
def longestGroupTail : List Char → Option (List Char)
  | [] => none
  | c :: cs =>
      match (if c = '\n' then none else (longestGroupTail cs).map (c :: ·)) with
      | some a => some a
      | none => if c == ' ' && outcomeSegMatch cs then some [] else none

/-- Application of the compiled pattern of get_passed_tests to one log
line via re.match: when the line matches, the test identifier captured
by group 1 (the spyder prefix plus the greedy tail). -/
def matchPassedLine (line : String) : Option String :=
  let cs := line.data
  if spyderChars.isPrefixOf cs then
    (longestGroupTail (cs.drop spyderChars.length)).map
      (fun a => String.mk (spyderChars ++ a))
  else
    none

/-- get_passed_tests: when pytest_log.txt exists (modelled as some list
of its lines) collect into a set the group-1 identifier of every
matching line; when it does not exist return the empty list. The Python
set is modelled as a duplicate-free list built by insertion. -/
def get_passed_tests (log : Option (List String)) : List String :=
  match log with
  | some logfile =>
      logfile.foldl
        (fun tests line =>
          match matchPassedLine line with
          | some t => if t ∈ tests then tests else tests ++ [t]
          | none => tests)
        []
  | none => []

/-- A collected pytest item: its nodeid and the markers added to it. -/
structure CollectedItem where
  nodeid : String
  markers : List String
deriving DecidableEq

/-- item.add_marker: append a skip marker, identified by its name. -/
def add_marker (item : CollectedItem) (m : String) : CollectedItem :=
  { item with markers := item.markers ++ [m] }

/-- pytest_collection_modifyitems. The slow_items parameter stands for
the CI-environment-dependent selection computed at the top of the hook
(the test_mainwindow items plus a float-percentage share of the
test_ipythonconsole items); the claims hold for every such selection, so
it is universally quantified rather than recomputed, keeping the
floating-point percentage and the environment lookups out of the model.
Each item first gets skip_fast or skip_slow according to the --run-slow
option and slow-item membership, then gets skip_passed exactly when its
nodeid is among the previously passed tests. -/
def pytest_collection_modifyitems (log : Option (List String))
    (slow_option : Bool) (slow_items : List CollectedItem)
    (items : List CollectedItem) : List CollectedItem :=
  let passed_tests := get_passed_tests log
  items.map (fun item =>
    let item1 :=
      if slow_option then
        if item ∉ slow_items then add_marker item "skip_fast" else item
      else
        if item ∈ slow_items then add_marker item "skip_slow" else item
    if item1.nodeid ∈ passed_tests then add_marker item1 "skip_passed"
    else item1)

/-! Concrete fixtures used by counterexamples and witnesses. -/

/-- A console client for server srv1 before any kernel is attached. -/
def sampleClient : Client :=
  { server_id := "srv1", kernel_id := none, shutdown_signal_connected := false }

/-- The same client after on_kernel_started wired it. -/
def wiredClient : Client :=
  { server_id := "srv1", kernel_id := some "k1",
    shutdown_signal_connected := true }

/-- A kernel_info record for kernel k1. -/
def sampleKernelInfo : KernelInfo :=
  { id := "k1", connection_info := "conninfo-json" }

/-- A configuration store with no options at all. -/
def emptyConf : ConfStore :=
  { plain := fun _ => none, secure := fun _ => none }

/-- A store whose srv1 entry uses the unimplemented ConfigFile method. -/
def configFileConf : ConfStore :=
  { plain := fun k =>
      if k = "srv1/auth_method" then some AuthenticationMethod.ConfigFile
      else none
    secure := fun _ => none }

/-- A store whose srv1 entry uses the Password method, with the address
fields and the secure password populated. -/
def passwordConf : ConfStore :=
  { plain := fun k =>
      if k = "srv1/auth_method" then some AuthenticationMethod.Password
      else if k = "srv1/" ++ AuthenticationMethod.Password ++ "/address" then
        some "example.com"
      else if k = "srv1/" ++ AuthenticationMethod.Password ++ "/username" then
        some "alice"
      else if k = "srv1/" ++ AuthenticationMethod.Password ++ "/port" then
        some "22"
      else none
    secure := fun k => if k = "srv1/password" then some "pw" else none }

/-- A store whose srv1 entry uses the KeyFile method, with a keyfile and
a non-empty secure passphrase. -/
def keyfileConf : ConfStore :=
  { plain := fun k =>
      if k = "srv1/auth_method" then some AuthenticationMethod.KeyFile
      else if k = "srv1/" ++ AuthenticationMethod.KeyFile ++ "/address" then
        some "example.com"
      else if k = "srv1/" ++ AuthenticationMethod.KeyFile ++ "/username" then
        some "alice"
      else if k = "srv1/" ++ AuthenticationMethod.KeyFile ++ "/port" then
        some "22"
      else if k = "srv1/" ++ AuthenticationMethod.KeyFile ++ "/keyfile" then
        some "/home/alice/.ssh/id_ed25519"
      else none
    secure := fun k => if k = "srv1/passpharse" then some "hunter2" else none }

/-- The tunnel job that on_kernel_started builds from passwordConf for
sampleClient, sampleKernelInfo and the fresh path /tmp/conn-w.json. -/
def passwordWorker : Worker :=
  { tunnel_connection_info := "conninfo-json"
    tunnel_hostname := "alice@example.com:22"
    tunnel_sshkey := none
    tunnel_password := some "pw"
    ipyclient := wiredClient
    connection_file := "/tmp/conn-w.json"
    hostname := "alice@example.com:22"
    sshkey := none
    password := some "pw" }

/-! Helper lemmas. -/

/-- Appending distinct suffixes to the same string yields distinct
strings. -/
lemma status_keys_distinct (s : String) :
    s ++ "/status" ≠ s ++ "/status_message" := by
  intro h
  have h2 := congrArg String.data h
  rw [String.data_append, String.data_append] at h2
  exact absurd (List.append_cancel_left h2) (by decide)

/-- The client as mutated by on_kernel_started: kernel_id set and
shutdown signal connected. -/
def wired_client_of (ipyclient : Client) (kernel_info : KernelInfo) : Client :=
  { ipyclient with
      kernel_id := some kernel_info.id
      shutdown_signal_connected := true }

/-- The hostname f-string on_kernel_started builds from the fields under
the given auth-method namespace. -/
def hostname_of (conf : ConfStore) (config_id : String) (am : String) :
    String :=
  pyStr (conf.plain (config_id ++ "/" ++ am ++ "/username")) ++ "@" ++
    pyStr (conf.plain (config_id ++ "/" ++ am ++ "/address")) ++ ":" ++
    pyStr (conf.plain (config_id ++ "/" ++ am ++ "/port"))

/-- The effective password resolved under the KeyFile method: the secure
passpharse option when truthy, absent otherwise. -/
def keyfile_effective_password (conf : ConfStore) (config_id : String) :
    Option String :=
  let passpharse := conf.secure (config_id ++ "/passpharse")
  if pyTruthy passpharse then passpharse else none

/-- The tunnel job on_kernel_started builds under the Password method. -/
def password_worker_of (conf : ConfStore) (ipyclient : Client)
    (kernel_info : KernelInfo) (fresh : String) : Worker :=
  { tunnel_connection_info := kernel_info.connection_info
    tunnel_hostname :=
      hostname_of conf ipyclient.server_id AuthenticationMethod.Password
    tunnel_sshkey := none
    tunnel_password := conf.secure (ipyclient.server_id ++ "/password")
    ipyclient := wired_client_of ipyclient kernel_info
    connection_file := fresh
    hostname :=
      hostname_of conf ipyclient.server_id AuthenticationMethod.Password
    sshkey := none
    password := conf.secure (ipyclient.server_id ++ "/password") }

/-- The tunnel job on_kernel_started builds under the KeyFile method. -/
def keyfile_worker_of (conf : ConfStore) (ipyclient : Client)
    (kernel_info : KernelInfo) (fresh : String) : Worker :=
  { tunnel_connection_info := kernel_info.connection_info
    tunnel_hostname :=
      hostname_of conf ipyclient.server_id AuthenticationMethod.KeyFile
    tunnel_sshkey := conf.plain (ipyclient.server_id ++ "/" ++
      AuthenticationMethod.KeyFile ++ "/keyfile")
    tunnel_password := keyfile_effective_password conf ipyclient.server_id
    ipyclient := wired_client_of ipyclient kernel_info
    connection_file := fresh
    hostname :=
      hostname_of conf ipyclient.server_id AuthenticationMethod.KeyFile
    sshkey := conf.plain (ipyclient.server_id ++ "/" ++
      AuthenticationMethod.KeyFile ++ "/keyfile")
    password := keyfile_effective_password conf ipyclient.server_id }

/-- The mutated client returned by on_kernel_started. -/
lemma kernel_started_ipyclient (conf : ConfStore) (ipyclient : Client)
    (kernel_info : KernelInfo) (fresh : String) :
    (on_kernel_started conf ipyclient kernel_info fresh).ipyclient =
      wired_client_of ipyclient kernel_info := rfl

/-- The full trace of on_kernel_started under the Password method. -/
lemma kernel_started_trace_password (conf : ConfStore) (ipyclient : Client)
    (kernel_info : KernelInfo) (fresh : String)
    (hm : conf.plain (ipyclient.server_id ++ "/auth_method") =
      some AuthenticationMethod.Password) :
    (on_kernel_started conf ipyclient kernel_info fresh).trace =
      [Effect.setKernelId kernel_info.id,
       Effect.connectShutdownSignal,
       Effect.confRead (ipyclient.server_id ++ "/auth_method") false,
       Effect.confRead (ipyclient.server_id ++ "/" ++
         AuthenticationMethod.Password ++ "/address") false,
       Effect.confRead (ipyclient.server_id ++ "/" ++
         AuthenticationMethod.Password ++ "/username") false,
       Effect.confRead (ipyclient.server_id ++ "/" ++
         AuthenticationMethod.Password ++ "/port") false,
       Effect.confRead (ipyclient.server_id ++ "/password") true,
       Effect.writeFile fresh kernel_info.connection_info,
       Effect.submitAndStartWorker
         (password_worker_of conf ipyclient kernel_info fresh)] := by
  simp [on_kernel_started, ConfStore.get_conf, hm, pyStr,
    password_worker_of, hostname_of, wired_client_of]

/-- The full trace of on_kernel_started under the KeyFile method. -/
lemma kernel_started_trace_keyfile (conf : ConfStore) (ipyclient : Client)
    (kernel_info : KernelInfo) (fresh : String)
    (hm : conf.plain (ipyclient.server_id ++ "/auth_method") =
      some AuthenticationMethod.KeyFile) :
    (on_kernel_started conf ipyclient kernel_info fresh).trace =
      [Effect.setKernelId kernel_info.id,
       Effect.connectShutdownSignal,
       Effect.confRead (ipyclient.server_id ++ "/auth_method") false,
       Effect.confRead (ipyclient.server_id ++ "/" ++
         AuthenticationMethod.KeyFile ++ "/address") false,
       Effect.confRead (ipyclient.server_id ++ "/" ++
         AuthenticationMethod.KeyFile ++ "/username") false,
       Effect.confRead (ipyclient.server_id ++ "/" ++
         AuthenticationMethod.KeyFile ++ "/port") false,
       Effect.confRead (ipyclient.server_id ++ "/" ++
         AuthenticationMethod.KeyFile ++ "/keyfile") false,
       Effect.confRead (ipyclient.server_id ++ "/passpharse") true,
       Effect.writeFile fresh kernel_info.connection_info,
       Effect.submitAndStartWorker
         (keyfile_worker_of conf ipyclient kernel_info fresh)] := by
  simp [on_kernel_started, ConfStore.get_conf, hm, pyStr,
    AuthenticationMethod.Password, AuthenticationMethod.KeyFile,
    keyfile_worker_of, keyfile_effective_password, hostname_of,
    wired_client_of]

/-- The full trace of on_kernel_started when the resolved auth method is
neither Password nor KeyFile (including an absent auth_method option):
the fall-through leaves the credential locals unassigned, the connection
file is still written, and the worker-creation step raises
UnboundLocalError — no job is submitted and no kernel error is shown. -/
lemma kernel_started_trace_fallthrough (conf : ConfStore) (ipyclient : Client)
    (kernel_info : KernelInfo) (fresh : String)
    (hP : conf.plain (ipyclient.server_id ++ "/auth_method") ≠
      some AuthenticationMethod.Password)
    (hK : conf.plain (ipyclient.server_id ++ "/auth_method") ≠
      some AuthenticationMethod.KeyFile) :
    (on_kernel_started conf ipyclient kernel_info fresh).trace =
      [Effect.setKernelId kernel_info.id,
       Effect.connectShutdownSignal,
       Effect.confRead (ipyclient.server_id ++ "/auth_method") false,
       Effect.confRead (ipyclient.server_id ++ "/" ++
         pyStr (conf.plain (ipyclient.server_id ++ "/auth_method")) ++
         "/address") false,
       Effect.confRead (ipyclient.server_id ++ "/" ++
         pyStr (conf.plain (ipyclient.server_id ++ "/auth_method")) ++
         "/username") false,
       Effect.confRead (ipyclient.server_id ++ "/" ++
         pyStr (conf.plain (ipyclient.server_id ++ "/auth_method")) ++
         "/port") false,
       Effect.writeFile fresh kernel_info.connection_info,
       Effect.raiseUnboundLocal] := by
  simp [on_kernel_started, ConfStore.get_conf, hP, hK]

/-- Every job that on_kernel_started submits is the Password-branch job
or the KeyFile-branch job, with the matching auth-method option. -/
lemma submit_mem_cases (conf : ConfStore) (ipyclient : Client)
    (kernel_info : KernelInfo) (fresh : String) (w : Worker)
    (hw : Effect.submitAndStartWorker w ∈
      (on_kernel_started conf ipyclient kernel_info fresh).trace) :
    (conf.plain (ipyclient.server_id ++ "/auth_method") =
        some AuthenticationMethod.Password ∧
      w = password_worker_of conf ipyclient kernel_info fresh) ∨
    (conf.plain (ipyclient.server_id ++ "/auth_method") =
        some AuthenticationMethod.KeyFile ∧
      w = keyfile_worker_of conf ipyclient kernel_info fresh) := by
  by_cases hP : conf.plain (ipyclient.server_id ++ "/auth_method") =
    some AuthenticationMethod.Password
  · left
    refine ⟨hP, ?_⟩
    rw [kernel_started_trace_password conf ipyclient kernel_info fresh hP]
      at hw
    simpa using hw
  · by_cases hK : conf.plain (ipyclient.server_id ++ "/auth_method") =
      some AuthenticationMethod.KeyFile
    · right
      refine ⟨hK, ?_⟩
      rw [kernel_started_trace_keyfile conf ipyclient kernel_info fresh hK]
        at hw
      simpa using hw
    · rw [kernel_started_trace_fallthrough conf ipyclient kernel_info fresh
        hP hK] at hw
      simp at hw

/-! Claim theorems. -/

/-- C1: for every completed tunnel-open job whose error is not set, the
completion callback produces exactly one effect: connecting to the job's
client a kernel handle built by the handle constructor from the job's
saved connection-file path, hostname, key and password together with the
worker output; in particular connect_kernel runs exactly once and
show_kernel_error never runs for that job. -/
theorem finish_success_attaches_kernel_once (conf : ConfStore)
    (worker : Worker) (output : KernelPorts) :
    finish_kernel_connection conf worker output none =
      [Effect.connectKernel worker.ipyclient
        (KernelHandler.from_connection_file worker.connection_file
          worker.hostname worker.sshkey worker.password output)] := rfl

/-- C2 (amended): for every completed tunnel-open job whose error is
set, the completion callback produces exactly one effect: a single
show_kernel_error call on the job's owning client whose message is the
string rendering of the error; no kernel handle is constructed or
attached and nothing else (in particular no retry) happens. The message
is therefore non-empty exactly when the error's string rendering is. -/
theorem finish_error_reports_once (conf : ConfStore) (worker : Worker)
    (output : KernelPorts) (err : PyError) :
    finish_kernel_connection conf worker output (some err) =
      [Effect.showKernelError worker.ipyclient err.message] := rfl

/-- C2 (counterexample): a worker error whose string rendering is empty
(as for a bare Python Exception()) makes the completion callback invoke
show_kernel_error with the empty message, refuting the claim that the
message is always non-empty. -/
theorem finish_error_empty_message_cex :
    finish_kernel_connection emptyConf passwordWorker []
        (some { message := "" }) =
      [Effect.showKernelError wiredClient ""] := rfl

/-- C6: persisting a ConnectionInfo status update is idempotent —
applying the sink twice with the same update leaves the store exactly as
applying it once — and each application stores the status and the
message under keys derived from the connection id. -/
theorem connection_status_persist_idempotent (conf : ConfStore)
    (info : ConnectionInfo) :
    on_connection_status_changed (on_connection_status_changed conf info)
          info =
        on_connection_status_changed conf info ∧
      (on_connection_status_changed conf info).get_conf
          (info.id ++ "/status") false = some info.status ∧
      (on_connection_status_changed conf info).get_conf
          (info.id ++ "/status_message") false = some info.message := by
  refine ⟨?_, ?_, ?_⟩
  · ext k
    · simp only [on_connection_status_changed, ConfStore.set_conf]
      by_cases h1 : k = info.id ++ "/status_message" <;>
        by_cases h2 : k = info.id ++ "/status" <;> simp [h1, h2]
    · rfl
  · simp [on_connection_status_changed, ConfStore.set_conf,
      ConfStore.get_conf, status_keys_distinct info.id]
  · simp [on_connection_status_changed, ConfStore.set_conf,
      ConfStore.get_conf]

/-- C9: every call to on_kernel_started begins by setting the client's
kernel_id from the kernel info and connecting the client's
kernel-shutdown-request signal — these are the first two effects of the
trace, before any configuration read, connection-file write or job
submission — and the returned client reflects both changes on every
call, including the ones that later raise. -/
theorem kernel_started_wires_client_first (conf : ConfStore)
    (ipyclient : Client) (kernel_info : KernelInfo)
    (fresh_connection_file : String) :
    (on_kernel_started conf ipyclient kernel_info
          fresh_connection_file).trace.take 2 =
        [Effect.setKernelId kernel_info.id, Effect.connectShutdownSignal] ∧
      (on_kernel_started conf ipyclient kernel_info
          fresh_connection_file).ipyclient.kernel_id = some kernel_info.id ∧
      (on_kernel_started conf ipyclient kernel_info
          fresh_connection_file).ipyclient.shutdown_signal_connected = true ∧
      (on_kernel_started conf ipyclient kernel_info
          fresh_connection_file).ipyclient.server_id = ipyclient.server_id :=
  ⟨rfl, rfl, rfl, rfl⟩

/-- C3 (amended): when the resolved auth method is neither Password nor
KeyFile, credential resolution is a no-op (no credential option is read)
and the connection file is still written, but the operation does not
submit a tunnel job: referencing the unassigned credential locals at the
worker-creation step raises UnboundLocalError. No error is surfaced to
the client (no show_kernel_error effect occurs). -/
theorem kernel_started_unknown_method_raises (conf : ConfStore)
    (ipyclient : Client) (kernel_info : KernelInfo) (fresh : String)
    (m : String)
    (hm : conf.plain (ipyclient.server_id ++ "/auth_method") = some m)
    (hP : m ≠ AuthenticationMethod.Password)
    (hK : m ≠ AuthenticationMethod.KeyFile) :
    (on_kernel_started conf ipyclient kernel_info fresh).trace =
      [Effect.setKernelId kernel_info.id,
       Effect.connectShutdownSignal,
       Effect.confRead (ipyclient.server_id ++ "/auth_method") false,
       Effect.confRead (ipyclient.server_id ++ "/" ++ m ++ "/address") false,
       Effect.confRead (ipyclient.server_id ++ "/" ++ m ++ "/username")
         false,
       Effect.confRead (ipyclient.server_id ++ "/" ++ m ++ "/port") false,
       Effect.writeFile fresh kernel_info.connection_info,
       Effect.raiseUnboundLocal] := by
  have ht := kernel_started_trace_fallthrough conf ipyclient kernel_info
    fresh (by simp [hm, hP]) (by simp [hm, hK])
  rw [ht, hm]
  simp [pyStr]

/-- C3 (witness): the amended claim at a concrete store whose srv1 entry
uses the unimplemented ConfigFile method. -/
theorem kernel_started_unknown_method_raises_witness :
    (on_kernel_started configFileConf sampleClient sampleKernelInfo
        "/tmp/conn-w3.json").trace =
      [Effect.setKernelId sampleKernelInfo.id,
       Effect.connectShutdownSignal,
       Effect.confRead (sampleClient.server_id ++ "/auth_method") false,
       Effect.confRead (sampleClient.server_id ++ "/" ++
         AuthenticationMethod.ConfigFile ++ "/address") false,
       Effect.confRead (sampleClient.server_id ++ "/" ++
         AuthenticationMethod.ConfigFile ++ "/username") false,
       Effect.confRead (sampleClient.server_id ++ "/" ++
         AuthenticationMethod.ConfigFile ++ "/port") false,
       Effect.writeFile "/tmp/conn-w3.json" sampleKernelInfo.connection_info,
       Effect.raiseUnboundLocal] :=
  kernel_started_unknown_method_raises configFileConf sampleClient
    sampleKernelInfo "/tmp/conn-w3.json" AuthenticationMethod.ConfigFile
    (by decide) (by decide) (by decide)

/-- C3 (counterexample): at a concrete store using the ConfigFile
method, the trace of on_kernel_started contains no submitAndStartWorker
effect and ends in raiseUnboundLocal, refuting the claim that the
operation still submits the tunnel job without raising. -/
theorem kernel_started_configfile_no_submit_cex :
    (on_kernel_started configFileConf sampleClient sampleKernelInfo
        "/tmp/conn-cex.json").trace =
      [Effect.setKernelId "k1",
       Effect.connectShutdownSignal,
       Effect.confRead "srv1/auth_method" false,
       Effect.confRead "srv1/configfile_login/address" false,
       Effect.confRead "srv1/configfile_login/username" false,
       Effect.confRead "srv1/configfile_login/port" false,
       Effect.writeFile "/tmp/conn-cex.json" "conninfo-json",
       Effect.raiseUnboundLocal] := by decide

/-- C4: under the KeyFile method, the keyfile path and the secret
passpharse option are both fetched, the submitted job (the last effect)
carries the fetched keyfile as its key, and its password is the
passphrase when that is present and non-empty and the absent value
otherwise — never the empty string. -/
theorem kernel_started_keyfile_credentials (conf : ConfStore)
    (ipyclient : Client) (kernel_info : KernelInfo) (fresh : String)
    (hm : conf.plain (ipyclient.server_id ++ "/auth_method") =
      some AuthenticationMethod.KeyFile) :
    Effect.confRead (ipyclient.server_id ++ "/" ++
        AuthenticationMethod.KeyFile ++ "/keyfile") false ∈
      (on_kernel_started conf ipyclient kernel_info fresh).trace ∧
    Effect.confRead (ipyclient.server_id ++ "/passpharse") true ∈
      (on_kernel_started conf ipyclient kernel_info fresh).trace ∧
    (on_kernel_started conf ipyclient kernel_info fresh).trace.getLast? =
      some (Effect.submitAndStartWorker
        (keyfile_worker_of conf ipyclient kernel_info fresh)) ∧
    (keyfile_worker_of conf ipyclient kernel_info fresh).sshkey =
      conf.plain (ipyclient.server_id ++ "/" ++
        AuthenticationMethod.KeyFile ++ "/keyfile") ∧
    (keyfile_worker_of conf ipyclient kernel_info fresh).password =
      (match conf.secure (ipyclient.server_id ++ "/passpharse") with
       | none => none
       | some s => if s = "" then none else some s) ∧
    (keyfile_worker_of conf ipyclient kernel_info fresh).password ≠
      some "" := by
  have ht := kernel_started_trace_keyfile conf ipyclient kernel_info fresh hm
  refine ⟨?_, ?_, ?_, rfl, ?_, ?_⟩
  · rw [ht]; simp
  · rw [ht]; simp
  · rw [ht]; rfl
  · show keyfile_effective_password conf ipyclient.server_id = _
    unfold keyfile_effective_password
    cases hp : conf.secure (ipyclient.server_id ++ "/passpharse") with
    | none => simp [pyTruthy]
    | some s => by_cases hs : s = "" <;> simp [pyTruthy, hs]
  · show keyfile_effective_password conf ipyclient.server_id ≠ some ""
    unfold keyfile_effective_password
    cases hp : conf.secure (ipyclient.server_id ++ "/passpharse") with
    | none => simp [pyTruthy]
    | some s => by_cases hs : s = "" <;> simp [pyTruthy, hs]

/-- C4 (witness): the credential resolution at a concrete KeyFile store
whose passphrase is the non-empty string hunter2. -/
theorem kernel_started_keyfile_credentials_witness :
    Effect.confRead (sampleClient.server_id ++ "/" ++
        AuthenticationMethod.KeyFile ++ "/keyfile") false ∈
      (on_kernel_started keyfileConf sampleClient sampleKernelInfo
        "/tmp/conn-w4.json").trace ∧
    Effect.confRead (sampleClient.server_id ++ "/passpharse") true ∈
      (on_kernel_started keyfileConf sampleClient sampleKernelInfo
        "/tmp/conn-w4.json").trace ∧
    (on_kernel_started keyfileConf sampleClient sampleKernelInfo
        "/tmp/conn-w4.json").trace.getLast? =
      some (Effect.submitAndStartWorker
        (keyfile_worker_of keyfileConf sampleClient sampleKernelInfo
          "/tmp/conn-w4.json")) ∧
    (keyfile_worker_of keyfileConf sampleClient sampleKernelInfo
        "/tmp/conn-w4.json").sshkey =
      keyfileConf.plain (sampleClient.server_id ++ "/" ++
        AuthenticationMethod.KeyFile ++ "/keyfile") ∧
    (keyfile_worker_of keyfileConf sampleClient sampleKernelInfo
        "/tmp/conn-w4.json").password =
      (match keyfileConf.secure (sampleClient.server_id ++ "/passpharse")
         with
       | none => none
       | some s => if s = "" then none else some s) ∧
    (keyfile_worker_of keyfileConf sampleClient sampleKernelInfo
        "/tmp/conn-w4.json").password ≠ some "" :=
  kernel_started_keyfile_credentials keyfileConf sampleClient
    sampleKernelInfo "/tmp/conn-w4.json" (by decide)

/-- C5: the hostname stored on every submitted tunnel job — both as the
tunnel argument and as the saved attribute — is the f-string
username@address:port whose three fields are read from the plain
configuration store under the nested namespace config_id/auth_method/
of the client's server id. -/
theorem kernel_started_hostname_format (conf : ConfStore)
    (ipyclient : Client) (kernel_info : KernelInfo) (fresh : String)
    (w : Worker) (username address port : String)
    (hu : conf.plain (ipyclient.server_id ++ "/" ++
      pyStr (conf.plain (ipyclient.server_id ++ "/auth_method")) ++
      "/username") = some username)
    (ha : conf.plain (ipyclient.server_id ++ "/" ++
      pyStr (conf.plain (ipyclient.server_id ++ "/auth_method")) ++
      "/address") = some address)
    (hpo : conf.plain (ipyclient.server_id ++ "/" ++
      pyStr (conf.plain (ipyclient.server_id ++ "/auth_method")) ++
      "/port") = some port)
    (hw : Effect.submitAndStartWorker w ∈
      (on_kernel_started conf ipyclient kernel_info fresh).trace) :
    w.tunnel_hostname = username ++ "@" ++ address ++ ":" ++ port ∧
      w.hostname = username ++ "@" ++ address ++ ":" ++ port := by
  rcases submit_mem_cases conf ipyclient kernel_info fresh w hw with
    ⟨hP, rfl⟩ | ⟨hK, rfl⟩
  · rw [hP] at hu ha hpo
    simp only [pyStr] at hu ha hpo
    constructor <;>
      simp [password_worker_of, hostname_of, pyStr, hu, ha, hpo]
  · rw [hK] at hu ha hpo
    simp only [pyStr] at hu ha hpo
    constructor <;>
      simp [keyfile_worker_of, hostname_of, pyStr, hu, ha, hpo]

/-- C5 (witness): the hostname at a concrete Password store resolving to
alice at example.com port 22. -/
theorem kernel_started_hostname_format_witness :
    (password_worker_of passwordConf sampleClient sampleKernelInfo
        "/tmp/conn-w5.json").tunnel_hostname =
        "alice" ++ "@" ++ "example.com" ++ ":" ++ "22" ∧
      (password_worker_of passwordConf sampleClient sampleKernelInfo
        "/tmp/conn-w5.json").hostname =
        "alice" ++ "@" ++ "example.com" ++ ":" ++ "22" :=
  kernel_started_hostname_format passwordConf sampleClient sampleKernelInfo
    "/tmp/conn-w5.json"
    (password_worker_of passwordConf sampleClient sampleKernelInfo
      "/tmp/conn-w5.json")
    "alice" "example.com" "22" (by decide) (by decide) (by decide)
    (by decide)

/-- C7: every submitted job carries, stored on itself at submission
time, the wired client, the fresh connection-file path and exactly the
hostname, key and password that were passed to the tunnel; and the
completion handler is self-contained — its result does not depend on the
configuration store it runs against and it performs no configuration
reads. -/
theorem job_state_saved_for_completion :
    (∀ (conf : ConfStore) (ipyclient : Client) (kernel_info : KernelInfo)
        (fresh : String) (w : Worker),
      Effect.submitAndStartWorker w ∈
          (on_kernel_started conf ipyclient kernel_info fresh).trace →
        w.ipyclient =
            (on_kernel_started conf ipyclient kernel_info fresh).ipyclient ∧
          w.connection_file = fresh ∧
          w.hostname = w.tunnel_hostname ∧
          w.sshkey = w.tunnel_sshkey ∧
          w.password = w.tunnel_password) ∧
      (∀ (conf1 conf2 : ConfStore) (worker : Worker) (output : KernelPorts)
          (error : Option PyError),
        finish_kernel_connection conf1 worker output error =
          finish_kernel_connection conf2 worker output error) ∧
      (∀ (conf : ConfStore) (worker : Worker) (output : KernelPorts)
          (error : Option PyError) (key : String) (isSecure : Bool),
        Effect.confRead key isSecure ∉
          finish_kernel_connection conf worker output error) := by
  refine ⟨?_, ?_, ?_⟩
  · intro conf ipyclient kernel_info fresh w hw
    rcases submit_mem_cases conf ipyclient kernel_info fresh w hw with
      ⟨hP, rfl⟩ | ⟨hK, rfl⟩ <;>
      exact ⟨rfl, rfl, rfl, rfl, rfl⟩
  · intro conf1 conf2 worker output error
    cases error <;> rfl
  · intro conf worker output error key isSecure
    cases error <;> simp [finish_kernel_connection]

/-- C7 (witness): the saved-state facts for the concrete job built from
the Password store. -/
theorem job_state_saved_for_completion_witness :
    (password_worker_of passwordConf sampleClient sampleKernelInfo
          "/tmp/conn-w7.json").ipyclient =
        (on_kernel_started passwordConf sampleClient sampleKernelInfo
          "/tmp/conn-w7.json").ipyclient ∧
      (password_worker_of passwordConf sampleClient sampleKernelInfo
          "/tmp/conn-w7.json").connection_file = "/tmp/conn-w7.json" ∧
      (password_worker_of passwordConf sampleClient sampleKernelInfo
          "/tmp/conn-w7.json").hostname =
        (password_worker_of passwordConf sampleClient sampleKernelInfo
          "/tmp/conn-w7.json").tunnel_hostname ∧
      (password_worker_of passwordConf sampleClient sampleKernelInfo
          "/tmp/conn-w7.json").sshkey =
        (password_worker_of passwordConf sampleClient sampleKernelInfo
          "/tmp/conn-w7.json").tunnel_sshkey ∧
      (password_worker_of passwordConf sampleClient sampleKernelInfo
          "/tmp/conn-w7.json").password =
        (password_worker_of passwordConf sampleClient sampleKernelInfo
          "/tmp/conn-w7.json").tunnel_password :=
  job_state_saved_for_completion.1 passwordConf sampleClient
    sampleKernelInfo "/tmp/conn-w7.json"
    (password_worker_of passwordConf sampleClient sampleKernelInfo
      "/tmp/conn-w7.json")
    (by decide)

/-- Submitting a job never grows the running set beyond the cap. -/
lemma submit_preserves_cap (wm : WorkerManager) (job : Nat)
    (h : wm.running.length ≤ wm.max_threads) :
    (wm.submit job).running.length ≤ wm.max_threads := by
  by_cases hc : wm.running.length < wm.max_threads
  · simp only [WorkerManager.submit, if_pos hc, List.length_append,
      List.length_cons, List.length_nil]
    omega
  · simp only [WorkerManager.submit, if_neg hc]
    exact h

/-- Finishing a job never grows the running set beyond the cap. -/
lemma finish_preserves_cap (wm : WorkerManager) (job : Nat)
    (h : wm.running.length ≤ wm.max_threads) :
    (wm.finish_job job).running.length ≤ wm.max_threads := by
  have hle : (wm.running.erase job).length ≤ wm.running.length :=
    (List.erase_sublist job wm.running).length_le
  by_cases hc : (wm.running.erase job).length < wm.max_threads
  · cases hq : wm.queued with
    | nil => simp only [WorkerManager.finish_job, hq, if_pos hc]; omega
    | cons q qs =>
        simp only [WorkerManager.finish_job, hq, if_pos hc,
          List.length_append, List.length_cons, List.length_nil]
        omega
  · simp only [WorkerManager.finish_job, if_neg hc]
    omega

/-- Pool transitions preserve the thread cap. -/
lemma step_max_threads (wm : WorkerManager) (e : PoolEvent) :
    (wm.step e).max_threads = wm.max_threads := by
  cases e with
  | submit job =>
      by_cases hc : wm.running.length < wm.max_threads <;>
        simp [WorkerManager.step, WorkerManager.submit, hc]
  | finish job =>
      by_cases hc : (wm.running.erase job).length < wm.max_threads
      · cases hq : wm.queued <;>
          simp [WorkerManager.step, WorkerManager.finish_job, hc, hq]
      · simp [WorkerManager.step, WorkerManager.finish_job, hc]

/-- Pool transitions preserve the capacity invariant. -/
lemma step_preserves_cap (wm : WorkerManager) (e : PoolEvent)
    (h : wm.running.length ≤ wm.max_threads) :
    (wm.step e).running.length ≤ (wm.step e).max_threads := by
  rw [step_max_threads]
  cases e with
  | submit job => exact submit_preserves_cap wm job h
  | finish job => exact finish_preserves_cap wm job h

/-- Running any event sequence preserves the capacity invariant. -/
lemma run_preserves_cap (events : List PoolEvent) (wm : WorkerManager)
    (h : wm.running.length ≤ wm.max_threads) :
    (wm.run events).running.length ≤ (wm.run events).max_threads := by
  induction events generalizing wm with
  | nil => exact h
  | cons e es ih =>
      exact ih (wm.step e) (step_preserves_cap wm e h)

/-- The run of an event sequence never changes the cap. -/
lemma run_max_threads (events : List PoolEvent) (wm : WorkerManager) :
    (wm.run events).max_threads = wm.max_threads := by
  induction events generalizing wm with
  | nil => rfl
  | cons e es ih => rw [WorkerManager.run, List.foldl_cons,
      ← WorkerManager.run, ih, step_max_threads]

/-- C8: starting from the container's pool (cap 5), after any sequence
of tunnel-open requests and job completions at most 5 jobs are running;
and a submitted job is never rejected: when a slot is free it starts
running immediately and otherwise it is appended to the queue. -/
theorem worker_pool_caps_at_five_and_queues (events : List PoolEvent)
    (wm : WorkerManager) (job : Nat) :
    (remote_client_worker_manager.run events).running.length ≤ 5 ∧
      (wm.submit job).running =
        (if wm.running.length < wm.max_threads then wm.running ++ [job]
         else wm.running) ∧
      (wm.submit job).queued =
        (if wm.running.length < wm.max_threads then wm.queued
         else wm.queued ++ [job]) := by
  refine ⟨?_, ?_, ?_⟩
  · have h5 : (remote_client_worker_manager.run events).max_threads = 5 :=
      run_max_threads events remote_client_worker_manager
    have := run_preserves_cap events remote_client_worker_manager
      (by simp [remote_client_worker_manager, WorkerManager.mk_pool])
    omega
  · unfold WorkerManager.submit
    split <;> simp_all
  · unfold WorkerManager.submit
    split <;> simp_all

/-- Membership in the fold that collects the identifiers of passed
tests. -/
lemma mem_passed_fold (lines : List String) (acc : List String)
    (t : String) :
    t ∈ lines.foldl
        (fun tests line =>
          match matchPassedLine line with
          | some u => if u ∈ tests then tests else tests ++ [u]
          | none => tests) acc ↔
      t ∈ acc ∨ ∃ l, l ∈ lines ∧ matchPassedLine l = some t := by
  induction lines generalizing acc with
  | nil => simp
  | cons l ls ih =>
      simp only [List.foldl_cons]
      rw [ih]
      cases hl : matchPassedLine l with
      | none =>
          simp only [hl, List.mem_cons]
          constructor
          · rintro (h | ⟨x, hx, hmx⟩)
            · exact Or.inl h
            · exact Or.inr ⟨x, Or.inr hx, hmx⟩
          · rintro (h | ⟨x, hx | hx, hmx⟩)
            · exact Or.inl h
            · rw [hx, hl] at hmx; cases hmx
            · exact Or.inr ⟨x, hx, hmx⟩
      | some u =>
          simp only [hl, List.mem_cons]
          by_cases hu : u ∈ acc
          · rw [if_pos hu]
            constructor
            · rintro (h | ⟨x, hx, hmx⟩)
              · exact Or.inl h
              · exact Or.inr ⟨x, Or.inr hx, hmx⟩
            · rintro (h | ⟨x, hx | hx, hmx⟩)
              · exact Or.inl h
              · rw [hx, hl] at hmx
                cases hmx
                exact Or.inl hu
              · exact Or.inr ⟨x, hx, hmx⟩
          · rw [if_neg hu]
            constructor
            · rintro (h | ⟨x, hx, hmx⟩)
              · rcases List.mem_append.1 h with h1 | h1
                · exact Or.inl h1
                · have ht : t = u := by simpa using h1
                  exact Or.inr ⟨l, Or.inl rfl, by rw [hl, ht]⟩
              · exact Or.inr ⟨x, Or.inr hx, hmx⟩
            · rintro (h | ⟨x, hx | hx, hmx⟩)
              · exact Or.inl (List.mem_append.2 (Or.inl h))
              · rw [hx, hl] at hmx
                cases hmx
                exact Or.inl (List.mem_append.2 (Or.inr (by simp)))
              · exact Or.inr ⟨x, hx, hmx⟩

/-- C10: get_passed_tests collects exactly the group-1 identifiers of
the log lines matched by the spyder-test-then-outcome pattern when the
log file exists and returns the empty list when it does not; and
pytest_collection_modifyitems adds the skip_passed marker to exactly
those collected items whose nodeid is among the collected identifiers,
for every value of the --run-slow option and every slow-item
selection, while preserving each item's nodeid. -/
theorem conftest_skip_passed_spec :
    get_passed_tests none = [] ∧
      (∀ (lines : List String) (t : String),
        t ∈ get_passed_tests (some lines) ↔
          ∃ l, l ∈ lines ∧ matchPassedLine l = some t) ∧
      (∀ (log : Option (List String)) (slow_option : Bool)
          (slow_items : List CollectedItem) (items : List CollectedItem),
        List.Forall₂
          (fun o r =>
            r.nodeid = o.nodeid ∧
              ("skip_passed" ∈ r.markers ↔
                "skip_passed" ∈ o.markers ∨
                  o.nodeid ∈ get_passed_tests log))
          items
          (pytest_collection_modifyitems log slow_option slow_items
            items)) := by
  refine ⟨rfl, ?_, ?_⟩
  · intro lines t
    have h := mem_passed_fold lines [] t
    simpa [get_passed_tests] using h
  · intro log slow_option slow_items items
    unfold pytest_collection_modifyitems
    rw [List.forall₂_map_right_iff, List.forall₂_same]
    intro a ha
    dsimp only
    cases slow_option <;> by_cases hsl : a ∈ slow_items <;>
      by_cases hp : a.nodeid ∈ get_passed_tests log <;>
      simp [hsl, hp, add_marker]
